import Mathlib

/-!
Shallow embedding of
`workspaces/adoption-insights/plugins/adoption-insights/src/components/CardFooter/TableFooterPagination.tsx`.

The file contains one piece of logic: the pure function
`generateRowsPerPageOptions`, which maps a total row count to an ordered
list of rows-per-page options, and the component `TableFooterPagination`,
which renders nothing when that list has at most one element and otherwise
renders a pagination control configured with the list.

JavaScript numbers are modelled as `Int` (all behaviour relevant to the
claims is integral).  `Math.max(...xs)` over a possibly-empty array is
modelled with `List.max? : List Int → Option Int`, where `none` stands
for the `-Infinity` that JavaScript returns on an empty array: comparing
`totalCount === -Infinity + 1` is always false and
`totalCount > -Infinity + 1` is always true, which the `match` below
reproduces exactly.
-/

/-- A rows-per-page option as produced by the component: a display label
and the numeric page size, mirroring the object literal
`{ label : string, value : number }` in the source. -/
structure RowsOption where
  label : String
  value : Int
deriving DecidableEq, Repr

/-- The fixed candidate table `const defaultOptions = [3, 5, 10, 20]`. -/
def defaultOptions : List Int := [3, 5, 10, 20]

/-- Embedding of `generateRowsPerPageOptions` from
`TableFooterPagination.tsx` lines 34-68, translated branch for branch. -/
def generateRowsPerPageOptions (totalCount : Int) : List RowsOption :=
  -- const maxDefaultOption = Math.max(...defaultOptions); the table is
  -- the concrete non-empty list above, so `maximum?` is `some`.
  let maxDefaultOption : Int := (defaultOptions.max?).getD 0
  if totalCount > 0 ∧ totalCount ≤ maxDefaultOption ∧ totalCount ∉ defaultOptions then
    let validDefaults := defaultOptions.filter (fun option => decide (option < totalCount))
    -- const lastValidDefault = Math.max(...validDefaults);
    match validDefaults.max? with
    | some lastValidDefault =>
      if totalCount = lastValidDefault + 1 then
        let validOptions :=
          if validDefaults.length > 1 then
            validDefaults.dropLast ++ [totalCount]
          else
            validDefaults ++ [totalCount]
        validOptions.map (fun value => { label := "Top " ++ toString value, value := value })
      else if totalCount > lastValidDefault + 1 then
        let validOptions := validDefaults ++ [totalCount]
        validOptions.map (fun value => { label := "Top " ++ toString value, value := value })
      else
        -- fall through to the default filtering at the bottom of the function
        (defaultOptions.filter (fun option => decide (option ≤ totalCount))).map
          (fun value => { label := "Top " ++ toString value, value := value })
    | none =>
      -- validDefaults is empty, so lastValidDefault is -Infinity:
      -- `totalCount === lastValidDefault + 1` is false and
      -- `totalCount > lastValidDefault + 1` is true, so the code takes the
      -- `concat` branch and returns [totalCount].
      ([] ++ [totalCount]).map (fun value => { label := "Top " ++ toString value, value := value })
  else
    (defaultOptions.filter (fun option => decide (option ≤ totalCount))).map
      (fun value => { label := "Top " ++ toString value, value := value })

/-- What `TableFooterPagination` renders: either nothing (`null` in the
source, when there is at most one option) or the pagination control,
recorded with the data the component passes to it.  The two event
callbacks are UI wiring forwarded verbatim and carry no logic, so they are
not part of the model. -/
inductive RenderOutput where
  | null
  | control (rowsPerPageOptions : List RowsOption) (count rowsPerPage page : Int)
deriving DecidableEq, Repr

/-- Embedding of the `TableFooterPagination` component, lines 70-129: it
computes the options for `count` and renders nothing when there are at
most one of them. -/
def TableFooterPagination (count rowsPerPage page : Int) : RenderOutput :=
  let rowsPerPageOptions := generateRowsPerPageOptions count
  if rowsPerPageOptions.length ≤ 1 then
    RenderOutput.null
  else
    RenderOutput.control rowsPerPageOptions count rowsPerPage page

/-- The default candidates strictly below a given count, in ascending
order: the spec's `validDefaults`.  Used to state the claims in the
spec's own vocabulary. -/
def candidatesBelow (totalCount : Int) : List Int :=
  defaultOptions.filter (fun option => decide (option < totalCount))

/-- The values of an option list, forgetting the labels. -/
def optionValues (options : List RowsOption) : List Int :=
  options.map (fun o => o.value)

/-- A copy of the generator abstracted over the candidate table, used to
state that the function reads nothing besides its argument and the fixed
constant table. -/
def generateRowsPerPageOptionsFrom (defaults : List Int) (totalCount : Int) : List RowsOption :=
  let maxDefaultOption : Int := (defaults.max?).getD 0
  if totalCount > 0 ∧ totalCount ≤ maxDefaultOption ∧ totalCount ∉ defaults then
    let validDefaults := defaults.filter (fun option => decide (option < totalCount))
    match validDefaults.max? with
    | some lastValidDefault =>
      if totalCount = lastValidDefault + 1 then
        let validOptions :=
          if validDefaults.length > 1 then
            validDefaults.dropLast ++ [totalCount]
          else
            validDefaults ++ [totalCount]
        validOptions.map (fun value => { label := "Top " ++ toString value, value := value })
      else if totalCount > lastValidDefault + 1 then
        let validOptions := validDefaults ++ [totalCount]
        validOptions.map (fun value => { label := "Top " ++ toString value, value := value })
      else
        (defaults.filter (fun option => decide (option ≤ totalCount))).map
          (fun value => { label := "Top " ++ toString value, value := value })
    | none =>
      ([] ++ [totalCount]).map (fun value => { label := "Top " ++ toString value, value := value })
  else
    (defaults.filter (fun option => decide (option ≤ totalCount))).map
      (fun value => { label := "Top " ++ toString value, value := value })

theorem generate_eq_from (totalCount : Int) :
    generateRowsPerPageOptions totalCount =
      generateRowsPerPageOptionsFrom [3, 5, 10, 20] totalCount := rfl

/-- For a count above the largest default candidate the guard on line 37
fails and the function returns the four defaults with their labels. -/
theorem generate_of_gt_maxDefault (totalCount : Int) (h : 20 < totalCount) :
    generateRowsPerPageOptions totalCount =
      [{ label := "Top 3", value := 3 }, { label := "Top 5", value := 5 },
       { label := "Top 10", value := 10 }, { label := "Top 20", value := 20 }] := by
  have hmax : ((defaultOptions.max?).getD 0 : Int) = 20 := rfl
  have hcond : ¬(totalCount > 0 ∧ totalCount ≤ (defaultOptions.max?).getD 0 ∧
      totalCount ∉ defaultOptions) := by
    rw [hmax]
    intro hc
    exact absurd hc.2.1 (by omega)
  have h3 : decide ((3 : Int) ≤ totalCount) = true := by simp; omega
  have h5 : decide ((5 : Int) ≤ totalCount) = true := by simp; omega
  have h10 : decide ((10 : Int) ≤ totalCount) = true := by simp; omega
  have h20 : decide ((20 : Int) ≤ totalCount) = true := by simp; omega
  simp only [generateRowsPerPageOptions]
  rw [if_neg hcond]
  simp [defaultOptions, List.filter_cons, h3, h5, h10, h20]
  exact ⟨by decide, by decide, by decide, by decide⟩

/-- The component renders nothing whenever the option list has at most one
element (lines 79-81 of the source). -/
theorem tableFooter_null_of_le_one (count rowsPerPage page : Int)
    (h : (generateRowsPerPageOptions count).length ≤ 1) :
    TableFooterPagination count rowsPerPage page = RenderOutput.null := by
  simp only [TableFooterPagination]
  rw [if_pos h]

/-- C1: for 0 < totalCount ≤ 20 with totalCount not a default candidate
and totalCount exactly one more than the largest default candidate
strictly below it, the generator drops the last candidate below and
appends totalCount when more than one candidate lies below, and appends
without dropping when exactly one lies below, labelling every element
"Top value". -/
theorem C1_replace_last (totalCount : Int)
    (h1 : 0 < totalCount) (h2 : totalCount ≤ 20)
    (h3 : totalCount ∉ defaultOptions)
    (h4 : candidatesBelow totalCount ≠ [])
    (h5 : totalCount = ((candidatesBelow totalCount).max?).getD 0 + 1) :
    generateRowsPerPageOptions totalCount =
      ((if 1 < (candidatesBelow totalCount).length then
          (candidatesBelow totalCount).dropLast
        else
          candidatesBelow totalCount) ++ [totalCount]).map
        (fun value => { label := "Top " ++ toString value, value := value }) := by
  revert h3 h4 h5
  interval_cases totalCount <;> decide

/-- Witness for C1 at totalCount = 6, where two candidates (3 and 5) lie
below and 5 is dropped. -/
theorem C1_replace_last_witness :
    generateRowsPerPageOptions 6 =
      ((if 1 < (candidatesBelow 6).length then
          (candidatesBelow 6).dropLast
        else
          candidatesBelow 6) ++ [6]).map
        (fun value => { label := "Top " ++ toString value, value := value }) :=
  C1_replace_last 6 (by decide) (by decide) (by decide) (by decide) (by decide)

/-- C2: for 0 < totalCount ≤ 20 with totalCount not a default candidate,
at least one candidate strictly below, and totalCount strictly greater
than one plus the largest such candidate, the generator appends totalCount
to the ascending candidates below it without dropping anything. -/
theorem C2_gap_append (totalCount : Int)
    (h1 : 0 < totalCount) (h2 : totalCount ≤ 20)
    (h3 : totalCount ∉ defaultOptions)
    (h4 : candidatesBelow totalCount ≠ [])
    (h5 : ((candidatesBelow totalCount).max?).getD 0 + 1 < totalCount) :
    generateRowsPerPageOptions totalCount =
      (candidatesBelow totalCount ++ [totalCount]).map
        (fun value => { label := "Top " ++ toString value, value := value }) := by
  revert h3 h4 h5
  interval_cases totalCount <;> decide

/-- Witness for C2 at totalCount = 7 (gap above 5). -/
theorem C2_gap_append_witness :
    generateRowsPerPageOptions 7 =
      (candidatesBelow 7 ++ [7]).map
        (fun value => { label := "Top " ++ toString value, value := value }) :=
  C2_gap_append 7 (by decide) (by decide) (by decide) (by decide) (by decide)

/-- C3: for totalCount equal to 0, above 20, or itself a default
candidate, the generator returns the candidates [3, 5, 10, 20] filtered to
values at most totalCount, each labelled "Top value". -/
theorem C3_default_filter (totalCount : Int)
    (h : totalCount = 0 ∨ 20 < totalCount ∨ totalCount ∈ defaultOptions) :
    generateRowsPerPageOptions totalCount =
      (([3, 5, 10, 20] : List Int).filter (fun value => decide (value ≤ totalCount))).map
        (fun value => { label := "Top " ++ toString value, value := value }) := by
  have hmax : ((defaultOptions.max?).getD 0 : Int) = 20 := rfl
  have hcond : ¬(totalCount > 0 ∧ totalCount ≤ (defaultOptions.max?).getD 0 ∧
      totalCount ∉ defaultOptions) := by
    rw [hmax]
    rcases h with h | h | h
    · intro hc
      exact absurd hc.1 (by omega)
    · intro hc
      exact absurd hc.2.1 (by omega)
    · intro hc
      exact hc.2.2 h
  simp only [generateRowsPerPageOptions]
  rw [if_neg hcond]
  rfl

/-- Witness for C3 at totalCount = 25, above the largest candidate. -/
theorem C3_default_filter_witness :
    generateRowsPerPageOptions 25 =
      (([3, 5, 10, 20] : List Int).filter (fun value => decide (value ≤ 25))).map
        (fun value => { label := "Top " ++ toString value, value := value }) :=
  C3_default_filter 25 (Or.inr (Or.inl (by decide)))

/-- C4: the generator returns option values exactly [3,4] for 4, [3,5]
for 5, [3,6] for 6, [3,5,7] for 7, [3,5,10] for 10, [3,5,11] for 11,
[3,5,10,20] for 20 and [3,5,10,20] for 25. -/
theorem C4_enumerated_counts :
    optionValues (generateRowsPerPageOptions 4) = [3, 4] ∧
    optionValues (generateRowsPerPageOptions 5) = [3, 5] ∧
    optionValues (generateRowsPerPageOptions 6) = [3, 6] ∧
    optionValues (generateRowsPerPageOptions 7) = [3, 5, 7] ∧
    optionValues (generateRowsPerPageOptions 10) = [3, 5, 10] ∧
    optionValues (generateRowsPerPageOptions 11) = [3, 5, 11] ∧
    optionValues (generateRowsPerPageOptions 20) = [3, 5, 10, 20] ∧
    optionValues (generateRowsPerPageOptions 25) = [3, 5, 10, 20] := by
  decide

/-- C5: for every totalCount at least 0, the option values are pairwise
distinct, strictly ascending, and each at most totalCount. -/
theorem C5_values_sorted_bounded (totalCount : Int) (h0 : 0 ≤ totalCount) :
    (optionValues (generateRowsPerPageOptions totalCount)).Nodup ∧
    (optionValues (generateRowsPerPageOptions totalCount)).Pairwise (fun a b => a < b) ∧
    ∀ v ∈ optionValues (generateRowsPerPageOptions totalCount), v ≤ totalCount := by
  by_cases hle : totalCount ≤ 20
  · interval_cases totalCount <;> decide
  · rw [generate_of_gt_maxDefault totalCount (by omega)]
    refine ⟨by decide, by decide, ?_⟩
    intro v hv
    simp only [optionValues, List.map_cons, List.map_nil, List.mem_cons,
      List.not_mem_nil, or_false] at hv
    rcases hv with h | h | h | h <;> omega

/-- Witness for C5 at totalCount = 7. -/
theorem C5_values_sorted_bounded_witness :
    (optionValues (generateRowsPerPageOptions 7)).Nodup ∧
    (optionValues (generateRowsPerPageOptions 7)).Pairwise (fun a b => a < b) ∧
    ∀ v ∈ optionValues (generateRowsPerPageOptions 7), v ≤ 7 :=
  C5_values_sorted_bounded 7 (by decide)

/-- C6: whenever the generator yields at most one option the component
returns null, and for every count in {1, 2, 3} the generator yields at
most one option and the component returns null. -/
theorem C6_display_gate :
    (∀ count rowsPerPage page : Int,
        (generateRowsPerPageOptions count).length ≤ 1 →
        TableFooterPagination count rowsPerPage page = RenderOutput.null) ∧
    (∀ count ∈ ([1, 2, 3] : List Int),
        (generateRowsPerPageOptions count).length ≤ 1 ∧
        ∀ rowsPerPage page : Int,
          TableFooterPagination count rowsPerPage page = RenderOutput.null) := by
  constructor
  · intro count rowsPerPage page h
    exact tableFooter_null_of_le_one count rowsPerPage page h
  · intro count hc
    fin_cases hc <;>
      exact ⟨by decide, fun rowsPerPage page =>
        tableFooter_null_of_le_one _ rowsPerPage page (by decide)⟩

/-- Witness for C6: concrete count 2 with concrete pagination state. -/
theorem C6_display_gate_witness :
    TableFooterPagination 2 5 0 = RenderOutput.null :=
  C6_display_gate.1 2 5 0 (by decide)

/-- C7: for totalCount = 0 the generator returns the empty list and the
component returns null. -/
theorem C7_zero_count :
    generateRowsPerPageOptions 0 = [] ∧
    ∀ rowsPerPage page : Int, TableFooterPagination 0 rowsPerPage page = RenderOutput.null := by
  refine ⟨by decide, fun rowsPerPage page => ?_⟩
  exact tableFooter_null_of_le_one 0 rowsPerPage page (by decide)

/-- C8: the generator is deterministic: two invocations with equal
arguments return identical sequences, and the result depends on nothing
besides the argument and the constant table [3, 5, 10, 20]. -/
theorem C8_deterministic (a b : Int) (h : a = b) :
    generateRowsPerPageOptions a = generateRowsPerPageOptions b ∧
    generateRowsPerPageOptions a = generateRowsPerPageOptionsFrom [3, 5, 10, 20] a := by
  subst h
  exact ⟨rfl, generate_eq_from a⟩

/-- Witness for C8 at totalCount = 7. -/
theorem C8_deterministic_witness :
    generateRowsPerPageOptions 7 = generateRowsPerPageOptions 7 ∧
    generateRowsPerPageOptions 7 = generateRowsPerPageOptionsFrom [3, 5, 10, 20] 7 :=
  C8_deterministic 7 7 rfl

/-- C9: for totalCount 1 and 2 the generator returns the single option
labelled "Top totalCount" with value totalCount, not the empty list, and
the component still renders nothing because the gate needs more than one
option. -/
theorem C9_singleton_below_three :
    generateRowsPerPageOptions 1 = [{ label := "Top 1", value := 1 }] ∧
    generateRowsPerPageOptions 2 = [{ label := "Top 2", value := 2 }] ∧
    ∀ rowsPerPage page : Int,
      TableFooterPagination 1 rowsPerPage page = RenderOutput.null ∧
      TableFooterPagination 2 rowsPerPage page = RenderOutput.null := by
  refine ⟨by decide, by decide, fun rowsPerPage page => ⟨?_, ?_⟩⟩ <;>
    exact tableFooter_null_of_le_one _ rowsPerPage page (by decide)

/-- C10: for every totalCount at least 0 the generator returns at most
four options. -/
theorem C10_at_most_four (totalCount : Int) (h0 : 0 ≤ totalCount) :
    (generateRowsPerPageOptions totalCount).length ≤ 4 := by
  by_cases hle : totalCount ≤ 20
  · interval_cases totalCount <;> decide
  · rw [generate_of_gt_maxDefault totalCount (by omega)]
    decide

/-- Witness for C10 at totalCount = 15, where the list is full. -/
theorem C10_at_most_four_witness :
    (generateRowsPerPageOptions 15).length ≤ 4 :=
  C10_at_most_four 15 (by decide)
